import Mathlib

/-!
Shallow embedding of the Vibe Station backend (src/main.py, src/schemas.py):
a FastAPI service over a MongoDB collection "project", with create / list /
get / bootstrap-ai operations. Machine details modelled as follows:
timestamps (datetime UTC) are Nat instants; float fields (pricing.amount and
the two AI scores) are exact rationals, since no claim exercises float
rounding; the document store is an association list from the ObjectId hex
string to the stored document, since every document written by the service
carries every key (create_project persists payload.model_dump() plus the
server-set keys), a key that is absent in Python is unrepresentable and an
explicitly null key is an Option that is none.
-/

namespace VibeStation

/-- Model of datetime instants (UTC): an abstract ordered clock value. -/
abbrev Time := Nat

/-- Pricing sub-document (src/main.py lines 22-25): type is free text (the
one-time | subscription | negotiation enum is not enforced), amount is an
optional number validated nonnegative by pydantic, currency defaults USD. -/
structure PricingDoc where
  type : String
  amount : Option ℚ := none
  currency : String := "USD"
  deriving DecidableEq, Repr

/-- Links sub-document (src/main.py lines 27-31): four optional URL fields,
kept as their textual form; well-formedness is checked by pydantic HttpUrl,
modelled by isHttpUrl below. -/
structure LinksDoc where
  external_url : Option String := none
  github_url : Option String := none
  embed_url : Option String := none
  zip_url : Option String := none
  deriving DecidableEq, Repr

/-- AIInsights sub-document (src/main.py lines 33-41). -/
structure AIDoc where
  summary : Option String := none
  pitch : Option String := none
  landing_copy : Option String := none
  deck_outline : Option (List String) := none
  tags : List String := []
  readiness_score : Option ℚ := none
  market_fit_score : Option ℚ := none
  suggestions : Option (List String) := none
  deriving DecidableEq, Repr

/-- The default AIInsights() value (src/main.py line 124): all fields none,
tags empty. -/
def emptyAIInsights : AIDoc := {}

/-- Wire input shape ProjectIn (src/main.py lines 43-51), with the pydantic
defaults. Shape-level validation (required name, field types) is carried by
the Lean types; the value-level pydantic checks live in pydantic_validate. -/
structure ProjectIn where
  name : String
  description : Option String := none
  tech_stack : List String := []
  category : Option String := none
  pricing : Option PricingDoc := none
  status : String := "MVP"
  links : Option LinksDoc := none
  thumbnails : List String := []
  deriving DecidableEq, Repr

/-- A stored "project" document, exactly the dict persisted by
create_project (src/main.py lines 121-130): the ProjectIn fields plus the
server-set ai block, counters and timestamps. Every key is always present;
optional values stored as Python None are none here. -/
structure ProjectDoc where
  name : String
  description : Option String := none
  tech_stack : List String := []
  category : Option String := none
  pricing : Option PricingDoc := none
  status : String := "MVP"
  links : Option LinksDoc := none
  thumbnails : List String := []
  ai : AIDoc := emptyAIInsights
  views : Nat := 0
  saves : Nat := 0
  watchers : Nat := 0
  created_at : Time
  updated_at : Time
  deriving DecidableEq, Repr

/-- Modelled from the spec: the external document store (database.py is not
under src/). A schemaless persistent collection keyed by opaque identifiers,
here an association list from the ObjectId hex string (its canonical
lowercase rendering) to the document, in insertion order. -/
abbrev Store := List (String × ProjectDoc)

/-- Errors surfaced by the endpoints. The first three are deliberate HTTP
errors (422 pydantic validation, 400 Invalid project id, 404 Project not
found); the last three are uncaught Python exceptions escaping the handler
(bson.errors.InvalidId from the ObjectId constructor, AttributeError from
calling split on None, TypeError from serializing a missing document). -/
inductive ApiError where
  | schemaViolation
  | invalidProjectId
  | projectNotFound
  | bsonInvalidId
  | attributeErrorNoneSplit
  | typeErrorNoneDoc
  deriving DecidableEq, Repr

/-- Hex digit test, as accepted by the bson ObjectId constructor. -/
def isHexDigit (c : Char) : Bool :=
  c.isDigit || (("a".front ≤ c) && (c ≤ "f".front)) || (("A".front ≤ c) && (c ≤ "F".front))

/-- Model of bson ObjectId validity for a string argument: the constructor
accepts exactly strings of 24 hexadecimal characters and raises InvalidId
otherwise. -/
def isValidObjectId (s : String) : Bool :=
  s.length == 24 && s.toList.all isHexDigit

/-- Model of pydantic HttpUrl acceptance: an http or https scheme followed
by a nonempty host. Finer constraints of the library parser are not
exercised by any claim. -/
def isHttpUrl (s : String) : Bool :=
  (schemeMatches "http://".toList s.toList && hostPartOk (s.toList.drop 7)) ||
  (schemeMatches "https://".toList s.toList && hostPartOk (s.toList.drop 8))
where
  schemeMatches : List Char → List Char → Bool
    | [], _ => true
    | _ :: _, [] => false
    | p :: ps, c :: cs => p = c && schemeMatches ps cs
  hostPartOk : List Char → Bool
    | [] => false
    | c :: _ => decide (c ≠ ("/".front))

/-- Python str.split with no argument: split on whitespace runs, dropping
empty tokens. -/
def pySplitWhitespace (s : String) : List String :=
  (s.split Char.isWhitespace).filter (fun t => t ≠ "")

/-- Python str.lower, per character. -/
def pyLower (s : String) : String := s.map Char.toLower

/-- Python truthiness on an optional string: None and the empty string are
falsy. Used by list_projects (src/main.py lines 139, 141). -/
def pyTruthy : Option String → Option String
  | none => none
  | some s => if s = "" then none else some s

/-- Rendering of a datetime as ISO-8601 text, as done by isoformat inside
the serializer (src/main.py line 70); modelled as the decimal rendering of
the instant, which is injective like the real rendering. -/
def isoformat (t : Time) : String := toString t

/-- Wire representation of a document after _serialize (src/main.py lines
63-71): the _id becomes the text field id and the two timestamps become
ISO-8601 text; every other stored field is passed through verbatim. -/
structure SerializedProject where
  id : String
  name : String
  description : Option String
  tech_stack : List String
  category : Option String
  pricing : Option PricingDoc
  status : String
  links : Option LinksDoc
  thumbnails : List String
  ai : AIDoc
  views : Nat
  saves : Nat
  watchers : Nat
  created_at : String
  updated_at : String
  deriving DecidableEq, Repr

/-- The _serialize helper (src/main.py lines 63-71) applied to a stored
document found under the given id. -/
def _serialize (id : String) (d : ProjectDoc) : SerializedProject :=
  { id := id, name := d.name, description := d.description,
    tech_stack := d.tech_stack, category := d.category, pricing := d.pricing,
    status := d.status, links := d.links, thumbnails := d.thumbnails,
    ai := d.ai, views := d.views, saves := d.saves, watchers := d.watchers,
    created_at := isoformat d.created_at, updated_at := isoformat d.updated_at }

/-- Modelled from the spec: find-by-id on the store (pymongo find_one on
the _id; the spec lists find-by-id among the store operations). Returns the
first document whose identifier equals the given one, if any. -/
def find_one : Store → String → Option ProjectDoc
  | [], _ => none
  | (k, d) :: rest, id => if k = id then some d else find_one rest id

/-- Modelled from the spec: update-by-id on the store, specialised to the
one update the service issues (pymongo update_one setting the ai block and
updated_at, src/main.py lines 191-194). Rewrites the first document with
the given identifier and leaves every other document untouched. -/
def update_one_ai (store : Store) (id : String) (ai : AIDoc) (t : Time) : Store :=
  match store with
  | [] => []
  | (k, d) :: rest =>
      if k = id then (k, { d with ai := ai, updated_at := t }) :: rest
      else (k, d) :: update_one_ai rest id ai t

/-- Mongo filter built by list_projects (src/main.py lines 138-142): exact
match on category when that filter is present, and membership of tech in
the tech_stack array when that filter is present, conjoined. -/
def mongoProjectFilter (category tech : Option String) (d : ProjectDoc) : Bool :=
  (match category with
   | none => true
   | some c => d.category = some c) &&
  (match tech with
   | none => true
   | some t => d.tech_stack.contains t)

/-- Modelled from the spec: filtered find on the store (the repository
helper get_documents lives in database.py, not under src/; the spec says
the store supports filtered find). Returns the stored documents matching
the filter, in store order. -/
def get_documents (store : Store) (category tech : Option String) :
    List (String × ProjectDoc) :=
  store.filter (fun kd => mongoProjectFilter category tech kd.2)

/-- The value-level checks pydantic runs on a ProjectIn payload before the
handler body executes (src/main.py lines 22-51): pricing.amount, when
present, must be nonnegative, and each link, when present, must parse as an
http URL. Shape errors are unrepresentable in the typed embedding. -/
def pydantic_validate (p : ProjectIn) : Bool :=
  (match p.pricing with
   | none => true
   | some pr =>
     match pr.amount with
     | none => true
     | some a => decide (0 ≤ a)) &&
  (match p.links with
   | none => true
   | some l =>
       optUrlOk l.external_url && optUrlOk l.github_url &&
       optUrlOk l.embed_url && optUrlOk l.zip_url)
where
  optUrlOk : Option String → Bool
    | none => true
    | some u => isHttpUrl u

/-- The create_project handler body (src/main.py lines 120-133): persists
the payload plus empty ai, zero counters and now as both timestamps, then
re-reads the document by its new id and serializes it. The store-assigned
identifier is passed in as newId (the store draws it externally). A missing
re-read would make Python raise a TypeError while serializing None. -/
def create_project (p : ProjectIn) (store : Store) (now : Time) (newId : String) :
    Except ApiError SerializedProject × Store :=
  let base : ProjectDoc :=
    { name := p.name, description := p.description, tech_stack := p.tech_stack,
      category := p.category, pricing := p.pricing, status := p.status,
      links := p.links, thumbnails := p.thumbnails,
      ai := emptyAIInsights, views := 0, saves := 0, watchers := 0,
      created_at := now, updated_at := now }
  let store₁ := store ++ [(newId, base)]
  match find_one store₁ newId with
  | none => (.error .typeErrorNoneDoc, store₁)
  | some created => (.ok (_serialize newId created), store₁)

/-- The POST /api/projects endpoint: FastAPI runs the pydantic validation
of the ProjectIn body and answers 422 without invoking the handler (hence
with no store write) when it fails; otherwise the handler runs. -/
def post_api_projects (p : ProjectIn) (store : Store) (now : Time) (newId : String) :
    Except ApiError SerializedProject × Store :=
  if pydantic_validate p then create_project p store now newId
  else (.error .schemaViolation, store)

/-- The list_projects handler (src/main.py lines 137-144): builds the
filter with Python truthiness tests on the two query parameters, runs the
filtered find, serializes each hit. Reads only. -/
def list_projects (store : Store) (category tech : Option String) :
    List SerializedProject :=
  (get_documents store (pyTruthy category) (pyTruthy tech)).map
    (fun kd => _serialize kd.1 kd.2)

/-- The get_project handler (src/main.py lines 148-155): the ObjectId
construction sits inside a try block, so a malformed identifier becomes a
400 Invalid project id; an absent document becomes a 404; otherwise the
document is serialized. -/
def get_project (store : Store) (project_id : String) :
    Except ApiError SerializedProject :=
  if isValidObjectId project_id then
    match find_one store project_id with
    | none => .error .projectNotFound
    | some d => .ok (_serialize project_id d)
  else .error .invalidProjectId

/-- The default used for a falsy description (src/main.py line 166). -/
def defaultDescription : String :=
  "An innovative micro-app that solves a focused problem."

/-- The ai_block dict built by bootstrap_ai (src/main.py lines 165-189)
from a document whose category value is the string cat. techs is the comma
join of tech_stack, replaced by a default when that join is falsy (empty);
description falls back to a default when falsy (None or empty). -/
def bootstrapAIBlock (doc : ProjectDoc) (cat : String) : AIDoc :=
  let joined := String.intercalate ", " doc.tech_stack
  let techs := if joined = "" then "modern web stack" else joined
  let descr :=
    match doc.description with
    | none => defaultDescription
    | some d => if d = "" then defaultDescription else d
  { summary := some (doc.name ++ " — " ++ descr)
    pitch := some (doc.name ++
      " helps teams move faster by automating key workflows using " ++ techs ++ ".")
    landing_copy := some ("Ship faster with " ++ doc.name ++ ". Built with " ++ techs ++ ".")
    deck_outline := some ["Problem", "Solution", "Product Demo", "Market",
      "Business Model", "Roadmap"]
    tags := (pySplitWhitespace cat).map pyLower ++ doc.tech_stack
    readiness_score := some 60
    market_fit_score := some 55
    suggestions := some ["Add a quick demo video", "Publish a public roadmap",
      "Collect early user feedback"] }

/-- The bootstrap_ai handler (src/main.py lines 160-197). The ObjectId
construction at line 161 is NOT inside a try block, so a malformed id
raises bson InvalidId out of the handler. An absent document is a 404.
Line 181 evaluates a split call on the category value fetched with a
get whose default only covers a missing key; documents written by
create_project always carry the key, so a null category reaches split as
None and raises AttributeError out of the handler before any write. On the
string path the handler writes the ai block with a refreshed updated_at,
re-reads the document and returns its serialization. -/
def bootstrap_ai (store : Store) (now : Time) (project_id : String) :
    Except ApiError (SerializedProject × Store) :=
  if isValidObjectId project_id then
    match find_one store project_id with
    | none => .error .projectNotFound
    | some doc =>
      match doc.category with
      | none => .error .attributeErrorNoneSplit
      | some cat =>
        let store₁ := update_one_ai store project_id (bootstrapAIBlock doc cat) now
        match find_one store₁ project_id with
        | none => .error .typeErrorNoneDoc
        | some updated => .ok (_serialize project_id updated, store₁)
  else .error .bsonInvalidId

/-! Decidability of equality on endpoint results, used to evaluate the
operations at concrete inputs. -/

instance {ε α : Type} [DecidableEq ε] [DecidableEq α] : DecidableEq (Except ε α) :=
  fun x y =>
    match x, y with
    | .error a, .error b =>
      if h : a = b then .isTrue (by rw [h]) else .isFalse (fun he => h (Except.error.inj he))
    | .error _, .ok _ => .isFalse (fun he => Except.noConfusion he)
    | .ok _, .error _ => .isFalse (fun he => Except.noConfusion he)
    | .ok a, .ok b =>
      if h : a = b then .isTrue (by rw [h]) else .isFalse (fun he => h (Except.ok.inj he))

/-- Equality of every stored field except the ai block and updated_at:
the frame a successful bootstrap must preserve on each document. -/
def otherFieldsEq (d d' : ProjectDoc) : Prop :=
  d'.name = d.name ∧ d'.description = d.description ∧ d'.tech_stack = d.tech_stack ∧
  d'.category = d.category ∧ d'.pricing = d.pricing ∧ d'.status = d.status ∧
  d'.links = d.links ∧ d'.thumbnails = d.thumbnails ∧ d'.views = d.views ∧
  d'.saves = d.saves ∧ d'.watchers = d.watchers ∧ d'.created_at = d.created_at

/-! Shared concrete inputs for evaluation. -/

/-- A well-formed ObjectId hex string. -/
def exampleId : String := "0123456789abcdef01234567"

/-- A stored document created with only a name: category is null. -/
def exampleNullCategoryDoc : ProjectDoc := { name := "Foo", created_at := 0, updated_at := 0 }

/-- A store holding only the null-category document. -/
def exampleNullCategoryStore : Store := [(exampleId, exampleNullCategoryDoc)]

/-- A stored document with a string category and two tech entries. -/
def exampleWebDoc : ProjectDoc :=
  { name := "Foo", category := some "Web Apps", tech_stack := ["Go", "React"],
    created_at := 0, updated_at := 0 }

/-- A store holding only the web document. -/
def exampleWebStore : Store := [(exampleId, exampleWebDoc)]

/-- The web document after a bootstrap at instant 1. -/
def exampleWebDocAfter : ProjectDoc :=
  { exampleWebDoc with ai := bootstrapAIBlock exampleWebDoc "Web Apps", updated_at := 1 }

/-- The web store after a bootstrap at instant 1. -/
def exampleStoreAfter : Store := [(exampleId, exampleWebDocAfter)]

/-! Helper lemmas about the store operations. -/

/-- Reading back the id just updated yields the stored document with the ai
block and updated_at replaced. -/
theorem find_one_update_one_ai_self (s : Store) (id : String) (ai : AIDoc) (t : Time) :
    find_one (update_one_ai s id ai t) id =
      (find_one s id).map (fun d => { d with ai := ai, updated_at := t }) := by
  induction s with
  | nil => rfl
  | cons kd rest ih =>
    obtain ⟨k, d⟩ := kd
    by_cases h : k = id
    · simp [update_one_ai, find_one, h]
    · simp [update_one_ai, find_one, h, ih]

/-- Reading back a freshly inserted id (one the store did not hold before)
yields the inserted document. -/
theorem find_one_append_of_none (s : Store) (id : String) (d : ProjectDoc)
    (h : find_one s id = none) : find_one (s ++ [(id, d)]) id = some d := by
  induction s with
  | nil => simp [find_one]
  | cons kd rest ih =>
    obtain ⟨k, d'⟩ := kd
    by_cases hk : k = id
    · simp [find_one, hk] at h
    · simp only [find_one, List.cons_append, if_neg hk] at h ⊢
      exact ih h

/-- Characterization of a successful bootstrap_ai run: when the id is
well-formed, a document is found under it and its category is a string,
the handler writes the derived ai block with the fresh timestamp and
returns the serialization of the re-read document. -/
theorem bootstrap_ai_ok (store : Store) (now : Time) (id : String)
    (doc : ProjectDoc) (cat : String)
    (hv : isValidObjectId id = true)
    (hf : find_one store id = some doc)
    (hc : doc.category = some cat) :
    bootstrap_ai store now id =
      Except.ok
        (_serialize id { doc with ai := bootstrapAIBlock doc cat, updated_at := now },
         update_one_ai store id (bootstrapAIBlock doc cat) now) := by
  simp [bootstrap_ai, hv, hf, hc, find_one_update_one_ai_self]

/-- Inversion of a successful bootstrap_ai run. -/
theorem bootstrap_ai_ok_inv (store : Store) (now : Time) (id : String)
    (r : SerializedProject) (s₁ : Store)
    (h : bootstrap_ai store now id = Except.ok (r, s₁)) :
    ∃ doc cat, isValidObjectId id = true ∧ find_one store id = some doc ∧
      doc.category = some cat ∧
      s₁ = update_one_ai store id (bootstrapAIBlock doc cat) now ∧
      r = _serialize id { doc with ai := bootstrapAIBlock doc cat, updated_at := now } := by
  by_cases hv : isValidObjectId id = true
  · cases hf : find_one store id with
    | none => simp [bootstrap_ai, hv, hf] at h
    | some doc =>
      cases hc : doc.category with
      | none => simp [bootstrap_ai, hv, hf, hc] at h
      | some cat =>
        rw [bootstrap_ai_ok store now id doc cat hv hf hc] at h
        have h' := Except.ok.inj h
        exact ⟨doc, cat, hv, rfl, hc,
          (congrArg Prod.snd h').symm, (congrArg Prod.fst h').symm⟩
  · rw [Bool.not_eq_true] at hv
    simp [bootstrap_ai, hv] at h

/-- The derived ai block depends only on the name, description, tech_stack
and category of the document, so replacing the ai block and updated_at
leaves it unchanged. -/
theorem bootstrapAIBlock_update (doc : ProjectDoc) (a : AIDoc) (u : Time) (cat : String) :
    bootstrapAIBlock { doc with ai := a, updated_at := u } cat = bootstrapAIBlock doc cat := rfl

/-- The ai update keeps every key in place, preserves every field other
than the ai block and updated_at on each document, and leaves documents
under a different key wholly unchanged. -/
theorem update_one_ai_full_frame (s : Store) (id : String) (ai : AIDoc) (t : Time) :
    List.Forall₂ (fun kd kd' : String × ProjectDoc =>
      kd'.1 = kd.1 ∧ otherFieldsEq kd.2 kd'.2 ∧ (kd.1 ≠ id → kd' = kd))
      s (update_one_ai s id ai t) := by
  induction s with
  | nil => exact List.Forall₂.nil
  | cons kd rest ih =>
    obtain ⟨k, d⟩ := kd
    simp only [update_one_ai]
    by_cases h : k = id
    · rw [if_pos h]
      exact List.Forall₂.cons
        ⟨rfl, ⟨rfl, rfl, rfl, rfl, rfl, rfl, rfl, rfl, rfl, rfl, rfl, rfl⟩,
          fun hne => absurd h hne⟩
        (List.forall₂_same.mpr (fun x _ =>
          ⟨rfl, ⟨rfl, rfl, rfl, rfl, rfl, rfl, rfl, rfl, rfl, rfl, rfl, rfl⟩, fun _ => rfl⟩))
    · rw [if_neg h]
      exact List.Forall₂.cons
        ⟨rfl, ⟨rfl, rfl, rfl, rfl, rfl, rfl, rfl, rfl, rfl, rfl, rfl, rfl⟩, fun _ => rfl⟩ ih

/-! Claim theorems. -/

/-- C1: the claim says bootstrapAI sets ai.tags to the lowercased
whitespace-split tokens of category, or the empty sequence if category is
absent, concatenated with the raw tech_stack entries. The code instead
raises AttributeError for a stored Project whose category is null, which is
exactly what create_project stores when the field is not supplied: the get
call at line 181 only defaults a missing key, not a null value, so split is
called on None. This theorem evaluates the handler at such a stored
Project: a Project is found under the id, its category is null, and the
call fails with the AttributeError instead of producing empty tags. -/
theorem c1_bootstrap_tags_crash_on_null_category :
    find_one exampleNullCategoryStore exampleId = some exampleNullCategoryDoc ∧
    exampleNullCategoryDoc.category = none ∧
    bootstrap_ai exampleNullCategoryStore 1 exampleId =
      Except.error ApiError.attributeErrorNoneSplit :=
  ⟨rfl, rfl, rfl⟩

/-- C2 counterexample: the claim says every identifier string with no
matching stored Project fails with NotFound, well-formed or not. On the
empty store the string below matches nothing, yet the call fails with the
uncaught bson InvalidId raised by the ObjectId constructor at line 161,
not with the 404 NotFound. -/
theorem c2_malformed_id_is_not_notfound :
    find_one [] "not-an-id" = none ∧
    bootstrap_ai [] 0 "not-an-id" = Except.error ApiError.bsonInvalidId ∧
    bootstrap_ai [] 0 "not-an-id" ≠ Except.error ApiError.projectNotFound := by
  refine ⟨rfl, rfl, ?_⟩
  decide

/-- C2 amended: bootstrapAI fails with NotFound for every well-formed
identifier with no matching Project; a malformed identifier instead raises
the identifier-format error InvalidId out of the handler, so format-level
errors are distinguishable from missing records in this operation. -/
theorem c2_bootstrap_notfound_and_invalid (store : Store) (t : Time) (id : String) :
    (isValidObjectId id = true → find_one store id = none →
      bootstrap_ai store t id = Except.error ApiError.projectNotFound) ∧
    (isValidObjectId id = false →
      bootstrap_ai store t id = Except.error ApiError.bsonInvalidId) := by
  constructor
  · intro hv hf
    simp [bootstrap_ai, hv, hf]
  · intro hv
    simp [bootstrap_ai, hv]

/-- C2 witness: both branches of the amended claim evaluated at concrete
inputs on the empty store. -/
theorem c2_bootstrap_notfound_and_invalid_witness :
    bootstrap_ai [] 0 "0123456789abcdef01234567" =
      Except.error ApiError.projectNotFound ∧
    bootstrap_ai [] 0 "not-an-id" = Except.error ApiError.bsonInvalidId :=
  ⟨(c2_bootstrap_notfound_and_invalid [] 0 "0123456789abcdef01234567").1 (by decide) rfl,
   (c2_bootstrap_notfound_and_invalid [] 0 "not-an-id").2 (by decide)⟩

/-- C3 counterexample: the claim quantifies over every stored Project, but
for a stored Project whose category is null the handler raises
AttributeError and produces no AIInsights value at all. -/
theorem c3_null_category_produces_no_insights :
    find_one exampleNullCategoryStore exampleId = some exampleNullCategoryDoc ∧
    bootstrap_ai exampleNullCategoryStore 2 exampleId =
      Except.error ApiError.attributeErrorNoneSplit :=
  ⟨rfl, rfl⟩

/-- C3 amended: for every stored Project whose category is a string (not
null), bootstrapAI produces an AIInsights value whose pitch is the name
followed by " helps teams move faster by automating key workflows using ",
the comma join of tech_stack (replaced by "modern web stack" when that join
is empty) and a period; whose deck_outline is exactly the six fixed entries
in order; whose readiness_score is 60 and market_fit_score is 55; and whose
suggestions is the fixed sequence of three canned strings. -/
theorem c3_bootstrap_insights_content (store : Store) (t : Time) (id : String)
    (doc : ProjectDoc) (cat : String)
    (hv : isValidObjectId id = true)
    (hf : find_one store id = some doc)
    (hc : doc.category = some cat) :
    ∃ r s₁, bootstrap_ai store t id = Except.ok (r, s₁) ∧
      r.ai.pitch = some (doc.name ++
        " helps teams move faster by automating key workflows using " ++
        (if String.intercalate ", " doc.tech_stack = "" then "modern web stack"
         else String.intercalate ", " doc.tech_stack) ++ ".") ∧
      r.ai.deck_outline = some ["Problem", "Solution", "Product Demo", "Market",
        "Business Model", "Roadmap"] ∧
      r.ai.readiness_score = some 60 ∧
      r.ai.market_fit_score = some 55 ∧
      r.ai.suggestions = some ["Add a quick demo video", "Publish a public roadmap",
        "Collect early user feedback"] := by
  refine ⟨_, _, bootstrap_ai_ok store t id doc cat hv hf hc, ?_, ?_, ?_, ?_, ?_⟩ <;>
    simp [_serialize, bootstrapAIBlock]

/-- C3 witness: the amended claim evaluated on a store holding one Project
named Foo with category "Web Apps" and tech_stack Go, React. -/
theorem c3_bootstrap_insights_content_witness :
    ∃ r s₁, bootstrap_ai exampleWebStore 1 exampleId = Except.ok (r, s₁) ∧
      r.ai.pitch = some (exampleWebDoc.name ++
        " helps teams move faster by automating key workflows using " ++
        (if String.intercalate ", " exampleWebDoc.tech_stack = "" then "modern web stack"
         else String.intercalate ", " exampleWebDoc.tech_stack) ++ ".") ∧
      r.ai.deck_outline = some ["Problem", "Solution", "Product Demo", "Market",
        "Business Model", "Roadmap"] ∧
      r.ai.readiness_score = some 60 ∧
      r.ai.market_fit_score = some 55 ∧
      r.ai.suggestions = some ["Add a quick demo video", "Publish a public roadmap",
        "Collect early user feedback"] :=
  c3_bootstrap_insights_content exampleWebStore 1 exampleId exampleWebDoc "Web Apps"
    (by decide) rfl rfl

/-- C4 counterexample: the claim quantifies over every stored Project, but
on a stored Project whose category is null both successive calls raise
AttributeError, so no ai content is produced either time and updated_at
never changes. -/
theorem c4_null_category_two_calls_fail :
    find_one exampleNullCategoryStore exampleId = some exampleNullCategoryDoc ∧
    bootstrap_ai exampleNullCategoryStore 5 exampleId =
      Except.error ApiError.attributeErrorNoneSplit ∧
    bootstrap_ai exampleNullCategoryStore 6 exampleId =
      Except.error ApiError.attributeErrorNoneSplit :=
  ⟨rfl, rfl, rfl⟩

/-- C4 amended: for every stored Project on which bootstrapAI succeeds
(in particular its category is a string), a second call at a strictly
later clock instant succeeds as well, produces identical ai content (the
derivation is deterministic, with no randomness), and the stored
updated_at strictly increases from the first instant to the second. -/
theorem c4_bootstrap_deterministic_updated_at (store : Store) (t₁ t₂ : Time)
    (id : String) (r₁ : SerializedProject) (s₁ : Store)
    (ht : t₁ < t₂)
    (h₁ : bootstrap_ai store t₁ id = Except.ok (r₁, s₁)) :
    ∃ r₂ s₂, bootstrap_ai s₁ t₂ id = Except.ok (r₂, s₂) ∧ r₂.ai = r₁.ai ∧
      ∃ d₁ d₂, find_one s₁ id = some d₁ ∧ find_one s₂ id = some d₂ ∧
        d₁.updated_at = t₁ ∧ d₂.updated_at = t₂ ∧ d₁.updated_at < d₂.updated_at := by
  obtain ⟨doc, cat, hv, hf, hc, hs₁, hr₁⟩ := bootstrap_ai_ok_inv store t₁ id r₁ s₁ h₁
  have hfind₁ : find_one s₁ id =
      some { doc with ai := bootstrapAIBlock doc cat, updated_at := t₁ } := by
    rw [hs₁, find_one_update_one_ai_self, hf]
    rfl
  have h₂ := bootstrap_ai_ok s₁ t₂ id
    { doc with ai := bootstrapAIBlock doc cat, updated_at := t₁ } cat hv hfind₁ hc
  rw [bootstrapAIBlock_update] at h₂
  refine ⟨_, _, h₂, ?_, ?_⟩
  · rw [hr₁]
    rfl
  · refine ⟨_, { doc with ai := bootstrapAIBlock doc cat, updated_at := t₂ },
      hfind₁, ?_, rfl, rfl, ht⟩
    rw [find_one_update_one_ai_self, hfind₁]
    rfl

/-- C4 witness: the amended claim evaluated on the web store, first call at
instant 1, second at instant 2. -/
theorem c4_bootstrap_deterministic_updated_at_witness :
    ∃ r₂ s₂, bootstrap_ai exampleStoreAfter 2 exampleId = Except.ok (r₂, s₂) ∧
      r₂.ai = (_serialize exampleId exampleWebDocAfter).ai ∧
      ∃ d₁ d₂, find_one exampleStoreAfter exampleId = some d₁ ∧
        find_one s₂ exampleId = some d₂ ∧
        d₁.updated_at = 1 ∧ d₂.updated_at = 2 ∧ d₁.updated_at < d₂.updated_at :=
  c4_bootstrap_deterministic_updated_at exampleWebStore 1 2 exampleId
    (_serialize exampleId exampleWebDocAfter) exampleStoreAfter (by decide) rfl

/-- C5 counterexample: the claim quantifies over every string c and says
list with category c returns exactly the stored Projects whose category
equals c. At c the empty string the handler drops the filter (Python
truthiness at line 139), so the web Project is returned even though its
category is not the empty string. -/
theorem c5_empty_category_filter_returns_all :
    exampleWebDoc.category ≠ some "" ∧
    list_projects exampleWebStore (some "") none =
      [_serialize exampleId exampleWebDoc] := by
  refine ⟨?_, rfl⟩
  decide

/-- C5 amended: list with no filters returns every stored Project; for
every nonempty string c, list with category c returns exactly the stored
Projects whose category equals c; for every nonempty string t, list with
tech t returns exactly the stored Projects whose tech_stack contains t;
with both nonempty filters the result is their conjunction. Empty-string
filters behave as no filter. -/
theorem c5_list_filter_semantics (store : Store) (c t : String) :
    list_projects store none none = store.map (fun kd => _serialize kd.1 kd.2) ∧
    (c ≠ "" → list_projects store (some c) none =
      (store.filter (fun kd => kd.2.category = some c)).map
        (fun kd => _serialize kd.1 kd.2)) ∧
    (t ≠ "" → list_projects store none (some t) =
      (store.filter (fun kd => kd.2.tech_stack.contains t)).map
        (fun kd => _serialize kd.1 kd.2)) ∧
    (c ≠ "" → t ≠ "" → list_projects store (some c) (some t) =
      (store.filter (fun kd =>
          decide (kd.2.category = some c) && kd.2.tech_stack.contains t)).map
        (fun kd => _serialize kd.1 kd.2)) := by
  refine ⟨?_, fun hc => ?_, fun ht => ?_, fun hc ht => ?_⟩
  · simp [list_projects, pyTruthy, get_documents, mongoProjectFilter]
  · simp [list_projects, pyTruthy, get_documents, mongoProjectFilter, hc]
  · simp [list_projects, pyTruthy, get_documents, mongoProjectFilter, ht]
  · simp [list_projects, pyTruthy, get_documents, mongoProjectFilter, hc, ht]

/-- C5 witness: the amended claim evaluated on the web store with category
"Web Apps" and tech "Go". -/
theorem c5_list_filter_semantics_witness :
    list_projects exampleWebStore none none =
      exampleWebStore.map (fun kd => _serialize kd.1 kd.2) ∧
    list_projects exampleWebStore (some "Web Apps") none =
      (exampleWebStore.filter (fun kd => kd.2.category = some "Web Apps")).map
        (fun kd => _serialize kd.1 kd.2) ∧
    list_projects exampleWebStore none (some "Go") =
      (exampleWebStore.filter (fun kd => kd.2.tech_stack.contains "Go")).map
        (fun kd => _serialize kd.1 kd.2) ∧
    list_projects exampleWebStore (some "Web Apps") (some "Go") =
      (exampleWebStore.filter (fun kd =>
          decide (kd.2.category = some "Web Apps") && kd.2.tech_stack.contains "Go")).map
        (fun kd => _serialize kd.1 kd.2) :=
  have h := c5_list_filter_semantics exampleWebStore "Web Apps" "Go"
  ⟨h.1, h.2.1 (by decide), h.2.2.1 (by decide), h.2.2.2 (by decide) (by decide)⟩

/-- C6: get fails with the 400 InvalidIdentifier error exactly when the
string is not a well-formed ObjectId, independent of existence; fails with
the 404 NotFound error when it is well-formed but no document matches; and
otherwise returns the serialization of the stored Project. -/
theorem c6_get_project_cases (store : Store) (id : String) :
    (isValidObjectId id = false →
      get_project store id = Except.error ApiError.invalidProjectId) ∧
    (isValidObjectId id = true → find_one store id = none →
      get_project store id = Except.error ApiError.projectNotFound) ∧
    (∀ doc, isValidObjectId id = true → find_one store id = some doc →
      get_project store id = Except.ok (_serialize id doc)) :=
  ⟨fun hv => by simp [get_project, hv],
   fun hv hf => by simp [get_project, hv, hf],
   fun doc hv hf => by simp [get_project, hv, hf]⟩

/-- C6 witness: the three branches evaluated at concrete inputs: a
malformed id, a well-formed absent id on the empty store, and the web
store with its stored id. -/
theorem c6_get_project_cases_witness :
    get_project [] "not-an-id" = Except.error ApiError.invalidProjectId ∧
    get_project [] "0123456789abcdef01234567" = Except.error ApiError.projectNotFound ∧
    get_project exampleWebStore exampleId = Except.ok (_serialize exampleId exampleWebDoc) :=
  ⟨(c6_get_project_cases [] "not-an-id").1 (by decide),
   (c6_get_project_cases [] "0123456789abcdef01234567").2.1 (by decide) rfl,
   (c6_get_project_cases exampleWebStore exampleId).2.2 exampleWebDoc (by decide) rfl⟩

/-- C7: creating a Project with only name set succeeds, and the returned
Project has empty tech_stack, thumbnails and ai.tags, status MVP, the
all-empty ai sub-document, zero views, saves and watchers, and created_at
equal to updated_at. The store-assigned id is fresh, which the freshness
hypothesis records. -/
theorem c7_create_only_name_defaults (n : String) (store : Store) (t : Time)
    (newId : String) (hfresh : find_one store newId = none) :
    ∃ sp store₁, post_api_projects { name := n } store t newId = (Except.ok sp, store₁) ∧
      sp.id = newId ∧ sp.name = n ∧ sp.description = none ∧ sp.tech_stack = [] ∧
      sp.category = none ∧ sp.pricing = none ∧ sp.status = "MVP" ∧ sp.links = none ∧
      sp.thumbnails = [] ∧ sp.ai = emptyAIInsights ∧ sp.ai.tags = [] ∧
      sp.views = 0 ∧ sp.saves = 0 ∧ sp.watchers = 0 ∧
      sp.created_at = sp.updated_at := by
  have hstep : post_api_projects { name := n } store t newId =
      (Except.ok (_serialize newId { name := n, created_at := t, updated_at := t }),
       store ++ [(newId, { name := n, created_at := t, updated_at := t })]) := by
    show create_project { name := n } store t newId = _
    simp only [create_project]
    rw [find_one_append_of_none _ _ _ hfresh]
  exact ⟨_, _, hstep, rfl, rfl, rfl, rfl, rfl, rfl, rfl, rfl, rfl, rfl, rfl,
    rfl, rfl, rfl, rfl⟩

/-- C7 witness: the claim evaluated on the empty store with a fresh id. -/
theorem c7_create_only_name_defaults_witness :
    ∃ sp store₁, post_api_projects { name := "Solo" } [] 0 exampleId =
        (Except.ok sp, store₁) ∧
      sp.id = exampleId ∧ sp.name = "Solo" ∧ sp.description = none ∧ sp.tech_stack = [] ∧
      sp.category = none ∧ sp.pricing = none ∧ sp.status = "MVP" ∧ sp.links = none ∧
      sp.thumbnails = [] ∧ sp.ai = emptyAIInsights ∧ sp.ai.tags = [] ∧
      sp.views = 0 ∧ sp.saves = 0 ∧ sp.watchers = 0 ∧
      sp.created_at = sp.updated_at :=
  c7_create_only_name_defaults "Solo" [] 0 exampleId rfl

/-- C8: a create input whose pricing amount is negative, or whose links
hold a string rejected by the URL parser, fails with the 422
SchemaViolation and leaves the store exactly as it was. -/
theorem c8_schema_violation_no_state_change (p : ProjectIn) (store : Store)
    (t : Time) (newId : String)
    (hbad : (∃ pr a, p.pricing = some pr ∧ pr.amount = some a ∧ a < 0) ∨
      (∃ l u, p.links = some l ∧
        (l.external_url = some u ∨ l.github_url = some u ∨
         l.embed_url = some u ∨ l.zip_url = some u) ∧ isHttpUrl u = false)) :
    post_api_projects p store t newId = (Except.error ApiError.schemaViolation, store) := by
  have hval : pydantic_validate p = false := by
    rcases hbad with ⟨pr, a, hp, ha, hneg⟩ | ⟨l, u, hl, hu, hbadu⟩
    · simp [pydantic_validate, hp, ha, not_le.mpr hneg]
    · rcases hu with h | h | h | h <;>
        simp [pydantic_validate, hl, h, hbadu, pydantic_validate.optUrlOk]
  simp [post_api_projects, hval]

/-- C8 witness: both rejection branches evaluated on the empty store, with
a pricing amount of minus one and with the link string "not-a-url". -/
theorem c8_schema_violation_no_state_change_witness :
    post_api_projects
      { name := "X", pricing := some { type := "one-time", amount := some (-1) } }
      [] 0 exampleId =
      (Except.error ApiError.schemaViolation, []) ∧
    post_api_projects
      { name := "Y", links := some { external_url := some "not-a-url" } }
      [] 0 exampleId =
      (Except.error ApiError.schemaViolation, []) :=
  ⟨c8_schema_violation_no_state_change _ [] 0 exampleId
      (Or.inl ⟨_, -1, rfl, rfl, by norm_num⟩),
   c8_schema_violation_no_state_change _ [] 0 exampleId
      (Or.inr ⟨_, "not-a-url", rfl, Or.inl rfl, by decide⟩)⟩

/-- C9: a successful bootstrapAI call keeps every key in place and changes
only the ai sub-document and updated_at of the addressed document, leaving
every other field of every document (including views, saves and watchers)
unchanged; and the only other writing operation, create, either leaves the
store untouched (validation failure) or appends one new document whose
three counters are zero. The list and get operations read only, as their
embedding returns no store. -/
theorem c9_bootstrap_frame_and_inert_counters :
    (∀ store t id r s₁, bootstrap_ai store t id = Except.ok (r, s₁) →
      List.Forall₂ (fun kd kd' : String × ProjectDoc =>
        kd'.1 = kd.1 ∧ otherFieldsEq kd.2 kd'.2 ∧ (kd.1 ≠ id → kd' = kd)) store s₁) ∧
    (∀ (p : ProjectIn) (store : Store) (t : Time) (newId : String),
      (post_api_projects p store t newId).2 = store ∨
      ∃ d : ProjectDoc, (post_api_projects p store t newId).2 = store ++ [(newId, d)] ∧
        d.views = 0 ∧ d.saves = 0 ∧ d.watchers = 0) := by
  constructor
  · intro store t id r s₁ h
    obtain ⟨doc, cat, hv, hf, hc, hs₁, hr⟩ := bootstrap_ai_ok_inv store t id r s₁ h
    rw [hs₁]
    exact update_one_ai_full_frame store id _ t
  · intro p store t newId
    by_cases hval : pydantic_validate p = true
    · right
      refine ⟨{ name := p.name, description := p.description,
                tech_stack := p.tech_stack, category := p.category,
                pricing := p.pricing, status := p.status, links := p.links,
                thumbnails := p.thumbnails, ai := emptyAIInsights, views := 0,
                saves := 0, watchers := 0, created_at := t, updated_at := t },
        ?_, rfl, rfl, rfl⟩
      simp only [post_api_projects, hval, if_true, create_project]
      split <;> rfl
    · left
      rw [Bool.not_eq_true] at hval
      simp [post_api_projects, hval]

/-- C9 witness: the frame evaluated on the bootstrap of the web store, and
the create branch evaluated on the empty store. -/
theorem c9_bootstrap_frame_and_inert_counters_witness :
    List.Forall₂ (fun kd kd' : String × ProjectDoc =>
      kd'.1 = kd.1 ∧ otherFieldsEq kd.2 kd'.2 ∧ (kd.1 ≠ exampleId → kd' = kd))
      exampleWebStore exampleStoreAfter ∧
    ((post_api_projects { name := "Inert" } [] 0 exampleId).2 = [] ∨
      ∃ d : ProjectDoc, (post_api_projects { name := "Inert" } [] 0 exampleId).2 =
        [] ++ [(exampleId, d)] ∧ d.views = 0 ∧ d.saves = 0 ∧ d.watchers = 0) :=
  ⟨c9_bootstrap_frame_and_inert_counters.1 exampleWebStore 1 exampleId
      (_serialize exampleId exampleWebDocAfter) exampleStoreAfter rfl,
   c9_bootstrap_frame_and_inert_counters.2 { name := "Inert" } [] 0 exampleId⟩

/-- C10: a filter given as the empty string is dropped by the Python
truthiness tests in list_projects, so list with an empty-string category,
tech, or both returns the serialization of every stored Project. -/
theorem c10_empty_string_filters_are_no_filter (store : Store) :
    list_projects store (some "") none = store.map (fun kd => _serialize kd.1 kd.2) ∧
    list_projects store none (some "") = store.map (fun kd => _serialize kd.1 kd.2) ∧
    list_projects store (some "") (some "") =
      store.map (fun kd => _serialize kd.1 kd.2) := by
  refine ⟨?_, ?_, ?_⟩ <;>
    simp [list_projects, pyTruthy, get_documents, mongoProjectFilter]

end VibeStation
